import Mathlib

set_option maxHeartbeats 1000000

/-!
Verification development for the noisedeck daemon UI controller.

The definitions below are a shallow embedding of `src/daemon/ui.rs`,
`src/daemon/ui/btn.rs` and the iterator helpers in `src/util.rs`.
Rust `usize` values are modelled as `Nat` (all subtractions in the modelled
code are `saturating_sub` or guarded, matching `Nat` truncated subtraction;
the places where Rust `-` could panic are noted at the definition).
Fallible code (`eyre::Result`) is modelled as `Except String`.
`Arc<Button>` pointer identity is modelled as a numeric allocation id.
-/

namespace Noisedeck

/-- `ButtonData` from ui.rs: label plus optional notification overlay. -/
structure BtnData where
  label : String
  notification : Option String := none
deriving DecidableEq

/-- `ButtonBehavior` from btn.rs. -/
inductive ButtonBehavior where
  | push (id : Nat)
  | playStop
  | pop
  | goto (id : Nat)
  | rotate
  | resetOffset
  | volumeUp
  | volumeDown
  | showVolumeControl
deriving DecidableEq

/-- `ButtonRef` wraps `Arc<Button>` and is compared by pointer identity
(`Arc::ptr_eq`, btn.rs `impl PartialEq for ButtonRef`). We model the
allocation identity as the numeric `id`. The immutable `Button` fields
(`track` — identified by its path, `on_tap`, `on_hold`) are carried inline;
`initData` is the `ButtonData` the button was constructed with. The mutable
current `ButtonData` (behind the `RwLock`) lives in `Deck.btn_data`, keyed by
`id`, defaulting to `initData` for buttons never written to. -/
structure ButtonRef where
  id : Nat
  initData : BtnData
  track : Option String := none
  on_tap : Option ButtonBehavior := none
  on_hold : Option ButtonBehavior := none
deriving DecidableEq

/-- `ButtonRef` equality: `Arc::ptr_eq` on the underlying allocation. -/
def refEq (a b : ButtonRef) : Bool :=
  a.id == b.id

/-- `Button::builder()...build().into()`: a button freshly allocated inside
a layout pass.  Its `Arc` identity is fresh and is never compared against any
other button by the modelled code, so we use the sentinel id 0 (library
buttons and the volume buttons get ids ≥ 1). -/
def built_button (label : String) (tap hold : Option ButtonBehavior) : ButtonRef :=
  { id := 0, initData := { label := label }, track := none, on_tap := tap, on_hold := hold }

/-- `ViewType` from ui.rs. Page ids (`Uuid`) are modelled as `Nat`. -/
inductive ViewType where
  | libraryPage (id : Nat)
  | volumeControl
deriving DecidableEq

/-- `View` from ui.rs: a navigation frame. -/
structure View where
  view_type : ViewType
  offset : Nat
deriving DecidableEq

/-- `View::new(page_id)`. -/
def View.new (page_id : Nat) : View :=
  { view_type := .libraryPage page_id, offset := 0 }

/-- `View::new_volume_control()`. -/
def View.new_volume_control : View :=
  { view_type := .volumeControl, offset := 0 }

/-- `View::page_id`. -/
def View.page_id : View → Option Nat
  | { view_type := .libraryPage id, .. } => some id
  | { view_type := .volumeControl, .. } => none

/-- `View::is_volume_control`. -/
def View.is_volume_control (v : View) : Bool :=
  match v.view_type with
  | .volumeControl => true
  | .libraryPage _ => false

/-- `PlayingView` from ui.rs: the ordered set of buttons bound to currently
advancing tracks, plus its own rotation offset. -/
structure PlayingView where
  buttons : List ButtonRef := []
  offset : Nat := 0
deriving DecidableEq

/-- `PlayingView::update_playing` from ui.rs: adds the button when it starts
playing and was absent, removes it (`Vec::retain`) when it stops and was
present, and reports whether membership changed. -/
def update_playing (pv : PlayingView) (button : ButtonRef) (playing : Bool) :
    PlayingView × Bool :=
  let currently_in_playing := pv.buttons.any (fun b => refEq b button)
  if playing && !currently_in_playing then
    ({ pv with buttons := pv.buttons ++ [button] }, true)
  else if !playing && currently_in_playing then
    ({ pv with buttons := pv.buttons.filter (fun b => !(refEq button b)) }, true)
  else
    (pv, false)

/-- Modelled from the spec: the immutable configuration tree (the repository's
`config` module is not under src/, only its users are).  A configured button
is a label plus a behavior: navigate to a page (`PushPage`) or play a sound
file (`PlaySound`); the playback settings carried by `PlaySound` are opaque to
the UI controller and omitted. -/
inductive CfgButtonBehavior where
  | pushPage (id : Nat)
  | playSound (path : String)
deriving DecidableEq

/-- Modelled from the spec: a configured button (`config::Button`). -/
structure CfgButton where
  label : String
  behavior : CfgButtonBehavior
deriving DecidableEq

/-- Modelled from the spec: a configuration page (`config::Page`): a name and
an ordered list of buttons. -/
structure Page where
  name : String
  buttons : List CfgButton
deriving DecidableEq

/-- `LibraryCategoryState` from ui.rs: one cache entry of the library cache. -/
structure LibraryCategoryState where
  id : Nat
  config : Page
  buttons : List ButtonRef
deriving DecidableEq

/-- `Geometry` from ui.rs, derived from the device kind's key layout. -/
structure Geometry where
  cols : Nat
  rows : Nat
  n_content : Nat
  n_dynamic : Nat
deriving DecidableEq

/-- `impl From<Kind> for Geometry`: `n_content = (rows-1)*cols`,
`n_dynamic = cols-2`.  (In Rust these are unsigned subtractions that would
panic for `rows = 0` or `cols < 2`; every supported device kind satisfies
`rows ≥ 1` and `cols ≥ 2`, and the theorems below carry these bounds.) -/
def Geometry.of_key_layout (rows cols : Nat) : Geometry :=
  { cols := cols, rows := rows, n_content := (rows - 1) * cols, n_dynamic := cols - 2 }

/-- `Kind::key_count()`: for every Stream Deck kind the key count is
`rows * cols` of its key layout. -/
def Geometry.key_count (g : Geometry) : Nat :=
  g.rows * g.cols

/-- `VolumeControls` from ui.rs. `global_db` is an `f64` in the source; the
modelled code only ever adds or subtracts the constant ±3.0 dB step, so we
model it as an integer number of decibels. -/
structure VolumeControls where
  global_db : Int
  global_up : ButtonRef
  global_down : ButtonRef
deriving DecidableEq

/-- `VolumeControls::new()`: the two fixed volume buttons.  Their `Arc`s are
allocated once at deck construction; we give them ids 1 and 2 (library
buttons start at id 3). -/
def VolumeControls.new : VolumeControls :=
  { global_db := 0
    global_up := { id := 1, initData := { label := "Vol +" }, on_tap := some .volumeUp }
    global_down := { id := 2, initData := { label := "Vol -" }, on_tap := some .volumeDown } }

/-- The `NoiseDeck` controller state (ui.rs).  The channels are not part of
the state: emitted commands are returned as event lists by the operations.
`btn_data` is the heap of current (mutable, `RwLock`-guarded) `ButtonData`
keyed by allocation id; `next_id` is the allocation counter for fresh
`Arc<Button>` identities. -/
structure Deck where
  geo : Geometry
  start_page : Nat
  pages : List (Nat × Page)
  library : List (Nat × LibraryCategoryState)
  tracks : List (String × ButtonRef)
  view_stack : List View
  playing : PlayingView
  volume : VolumeControls
  btn_data : List (Nat × BtnData)
  next_id : Nat
deriving DecidableEq

/-- `AudioCommand` from audio.rs (the variants the modelled code emits).
Tracks are identified by their path. -/
inductive AudioCommand where
  | play (path : String)
  | stop (path : String)
  | setGlobalVolume (db : Int)
deriving DecidableEq

/-- `UiCommand` as used by ui.rs: lightweight re-render or a full new grid. -/
inductive UiCommand where
  | refresh
  | flip (grid : List (Option ButtonRef))
deriving DecidableEq

/-- One emitted command, preserving the order across the two channels. -/
inductive EmitCmd where
  | audio (c : AudioCommand)
  | ui (c : UiCommand)
deriving DecidableEq

/-- `TrackStateData` from audio.rs.  `rem_duration` is in whole seconds;
kira's `PlaybackState::is_advancing()` is collapsed into the `advancing`
flag (the modelled code reads nothing else from the playback state). -/
structure TrackStateData where
  rem_duration : Option Nat := none
  advancing : Bool := false
deriving DecidableEq

/-- The playback state of every track, as the audio actor would report it
when the controller calls `track.read()`.  A track that was never touched is
in the default (stopped) state, matching `RealTrackState::default()`. -/
def TrackEnv := List (String × TrackStateData)

/-- Read a track's current state from the environment. -/
def TrackEnv.read (env : TrackEnv) (path : String) : TrackStateData :=
  (List.lookup path env).getD {}

/-- Insert-or-replace for the association lists standing in for `HashMap`. -/
def ainsert [BEq κ] (l : List (κ × α)) (k : κ) (v : α) : List (κ × α) :=
  match l with
  | [] => [(k, v)]
  | (k', v') :: rest => if k' == k then (k, v) :: rest else (k', v') :: ainsert rest k v

/-- util.rs `pad_alt_cnt` (`PadAlternateIter`): yield all of `inner`
(counting its items in the second component), then draw from `alt` while the
total stays below `minLen`. -/
def pad_alt_cnt (inner alt : List α) (minLen : Nat) : List α × Nat :=
  (inner ++ alt.take (minLen - inner.length), inner.length)

/-- util.rs `pad` (`PadIter`): yield all of `inner`, then pad with copies of
`p` up to `minLen` items.  (Rust's iterator decrements its counter without
saturation; every use in the modelled code has `inner.length ≤ minLen`.) -/
def padTo (inner : List α) (minLen : Nat) (p : α) : List α :=
  inner ++ List.replicate (minLen - inner.length) p

/-- Current ButtonData of a reference: heap entry if present, else the data
the button was constructed with. -/
def Deck.read_data (d : Deck) (b : ButtonRef) : BtnData :=
  (List.lookup b.id d.btn_data).getD b.initData

/-- Write through the `RwLock` of a button's `ButtonData`. -/
def Deck.write_data (d : Deck) (b : ButtonRef) (f : BtnData → BtnData) : Deck :=
  { d with btn_data := ainsert d.btn_data b.id (f (d.read_data b)) }

/-- The playing-set part of the dynamic region of `layout_page`: the playing
buttons rotated by the playing offset (skip+chain wrap), minus the buttons
already shown in the content region, cut to the dynamic capacity.  Its length
is what `pad_alt_cnt` reports as `effective_n_dyn_buttons`. -/
def dyn_playing (d : Deck) (semantic_buttons : List ButtonRef) (view : View) :
    List ButtonRef :=
  let g := d.geo
  let sel := (semantic_buttons.drop view.offset).take g.n_content
  let n_selected_buttons :=
    (pad_alt_cnt (sel.map some) (List.replicate g.n_content none) g.n_content).2
  let rotated := d.playing.buttons.drop d.playing.offset ++
    d.playing.buttons.take d.playing.offset
  (rotated.filter (fun b =>
    !((semantic_buttons.drop view.offset).take n_selected_buttons).any
      (fun sb => refEq sb b))).take g.n_dynamic

/-- The label of the Next/rotate slot:
`format!("Next\n{current_page}/{total_n_pages}\n{page_size_estimate}/{}", len)`. -/
def next_label (current_page total_n_pages page_size_estimate len : Nat) : String :=
  "Next\n" ++ toString current_page ++ "/" ++ toString total_n_pages ++
    "\n" ++ toString page_size_estimate ++ "/" ++ toString len

/-- `NoiseDeck::layout_page` (ui.rs): the pure layout of a library page.
Returns the physical grid and `n_selected_buttons`, the number of semantic
buttons the pass consumed.  The two Rust divisions
(`len / page_size_estimate` and `offset / n_content`) panic when the divisor
is zero; `page_size_estimate ≥ n_content > 0` holds for every supported
device geometry (`rows ≥ 2`), and `Nat` division returns 0 there instead. -/
def layout_page (d : Deck) (semantic_buttons : List ButtonRef) (view : View) :
    List (Option ButtonRef) × Nat :=
  let g := d.geo
  -- Content (skip/take is resilient against out-of-bounds offsets)
  let sel := (semantic_buttons.drop view.offset).take g.n_content
  let contentPair := pad_alt_cnt (sel.map some) (List.replicate g.n_content none) g.n_content
  let n_selected_buttons := contentPair.2
  -- Back
  let back := built_button "Back" (some .pop) (some (.goto d.start_page))
  -- Dynamic: playing set rotated by its own offset (skip+chain wrap),
  -- minus buttons already shown in the content region, backfilled with
  -- further semantic buttons that are not in the playing set.
  let dynInner := dyn_playing d semantic_buttons view
  let dynPair := pad_alt_cnt dynInner
    ((semantic_buttons.drop (view.offset + n_selected_buttons)).filter
      (fun b => !(d.playing.buttons.any (fun pb => refEq pb b))))
    g.n_dynamic
  let effective_n_dyn_buttons := dynPair.2
  let dynRegion := padTo (dynPair.1.map some) g.n_dynamic none
  let n_selected_buttons' := n_selected_buttons +
    min (g.n_dynamic - effective_n_dyn_buttons)
      (semantic_buttons.length - view.offset - n_selected_buttons)
  -- Next
  let page_size_estimate := g.n_content + (g.n_dynamic - effective_n_dyn_buttons)
  let total_n_pages := semantic_buttons.length / page_size_estimate +
    (if semantic_buttons.length % page_size_estimate > 0 then 1 else 0)
  let current_page := view.offset / g.n_content + 1
  let next := built_button
    (next_label current_page total_n_pages page_size_estimate semantic_buttons.length)
    (some .rotate)
    (some (if view.offset == 0 && d.playing.offset == 0 then .rotate else .resetOffset))
  (contentPair.1 ++ [some back] ++ dynRegion ++ [some next], n_selected_buttons')

/-- `NoiseDeck::layout_volume_control_page` (ui.rs): volume up/down in the
first column of the top rows, bottom row Back + rotated playing set + Next. -/
def layout_volume_control_page (d : Deck) : List (Option ButtonRef) :=
  let g := d.geo
  let row0 := [some d.volume.global_up] ++ List.replicate (g.cols - 1) none
  let row1 := if g.rows ≥ 2 then [some d.volume.global_down] ++ List.replicate (g.cols - 1) none
    else []
  let buttons_so_far := row0.length + row1.length
  -- `for _ in buttons_so_far..total` runs max(0, total - buttons_so_far) times
  let padMid := List.replicate ((g.rows - 1) * g.cols - buttons_so_far) (none : Option ButtonRef)
  let back := built_button "Back" (some .pop) (some (.goto d.start_page))
  let rotated := d.playing.buttons.drop d.playing.offset ++
    d.playing.buttons.take d.playing.offset
  let dynBtns := rotated.take g.n_dynamic
  let dynRegion := dynBtns.map some ++ List.replicate (g.n_dynamic - dynBtns.length) none
  let next := built_button "Next\n(Vol)" (some .rotate) (some .resetOffset)
  row0 ++ row1 ++ padMid ++ [some back] ++ dynRegion ++ [some next]

/-- `NoiseDeck::current_view`: the top of the never-empty view stack (the top
of the Rust `Vec` is the head of the modelled list). -/
def current_view (d : Deck) : Except String View :=
  match d.view_stack.head? with
  | some v => .ok v
  | none => .error "nav stack empty"

/-- `current_view_mut` use-site: replace the top view's offset. -/
def set_top_offset (d : Deck) (off : Nat) : Deck :=
  match d.view_stack with
  | v :: rest => { d with view_stack := { v with offset := off } :: rest }
  | [] => d

/-- The inner `layout_library_category` of `NoiseDeck::get_library_category`:
one `ButtonRef` per configured button, truncated to `key_count - 1`, with
fresh allocation ids threaded through. -/
def layout_library_category (startId : Nat) (btns : List CfgButton) :
    List ButtonRef × Nat :=
  match btns with
  | [] => ([], startId)
  | b :: rest =>
    let r : ButtonRef :=
      match b.behavior with
      | .pushPage id =>
        { id := startId, initData := { label := b.label }, on_tap := some (.push id) }
      | .playSound path =>
        { id := startId, initData := { label := b.label }, on_tap := some .playStop,
          track := some path }
    let (rs, nid) := layout_library_category (startId + 1) rest
    (r :: rs, nid)

/-- `NoiseDeck::get_library_category` (ui.rs): memoized, per page id, ordered
list of semantic buttons.  On a miss the page is fetched from the config
(`.expect("page not found")` — a missing page id is a contract violation,
modelled as an error), built once, and the path→button entries of its sound
buttons are added to the global tracks index. -/
def get_library_category (d : Deck) (page_id : Nat) :
    Except String (Deck × List ButtonRef) :=
  match List.lookup page_id d.library with
  | some st => .ok (d, st.buttons)
  | none =>
    match List.lookup page_id d.pages with
    | none => .error "page not found"
    | some page =>
      let (buttons, nid) := layout_library_category d.next_id
        (page.buttons.take (d.geo.key_count - 1))
      let newTracks := buttons.filterMap (fun b => b.track.map (fun p => (p, b)))
      let d' : Deck :=
        { d with
          library := ainsert d.library page_id
            { id := page_id, config := page, buttons := buttons }
          tracks := newTracks.foldl (fun t kv => ainsert t kv.1 kv.2) d.tracks
          next_id := nid }
      .ok (d', buttons)

/-- `NoiseDeck::display_top_page`: lay out the current top view and emit a
full-grid `Flip`. -/
def display_top_page (d : Deck) : Except String (Deck × List EmitCmd) := do
  let v ← current_view d
  match v.view_type with
  | .libraryPage page_id => do
    let (d, semantic_buttons) ← get_library_category d page_id
    let v ← current_view d
    let pr := layout_page d semantic_buttons v
    .ok (d, [.ui (.flip pr.1)])
  | .volumeControl =>
    .ok (d, [.ui (.flip (layout_volume_control_page d))])

/-- `NoiseDeck::push_volume_control_page`. -/
def push_volume_control_page (d : Deck) : Except String (Deck × List EmitCmd) := do
  let d := { d with view_stack := View.new_volume_control :: d.view_stack }
  display_top_page d

/-- Result of a button behavior: new state, emitted commands, and
`BtnInvokeStatus.skip_refresh`. -/
def BtnResult := Deck × List EmitCmd × Bool

/-- `btn_pop` (ui.rs): pop unless at the home page, then re-display. -/
def btn_pop (d : Deck) : Except String BtnResult :=
  if d.view_stack.length ≤ 1 then
    .ok (d, [], false)
  else do
    let d := { d with view_stack := d.view_stack.tail }
    let (d, es) ← display_top_page d
    .ok (d, es, true)

/-- `btn_push` (ui.rs): push a fresh library-page view and re-display. -/
def btn_push (d : Deck) (id : Nat) : Except String BtnResult := do
  let d := { d with view_stack := View.new id :: d.view_stack }
  let (d, es) ← display_top_page d
  .ok (d, es, true)

/-- `btn_goto` (ui.rs): clear the stack, then push. -/
def btn_goto (d : Deck) (id : Nat) : Except String BtnResult :=
  btn_push { d with view_stack := [] } id

/-- `btn_rotate` (ui.rs): for library pages advance the view offset by
`max(n_content, n_displayed)` wrapping to 0 at or past the page length; always
advance the playing-set offset by `n_dynamic` wrapping likewise; re-display. -/
def btn_rotate (d : Deck) : Except String BtnResult := do
  let v ← current_view d
  let d ←
    if !v.is_volume_control then
      match v.page_id with
      | none => .error "Cannot rotate view that has no page ID"
      | some page_id => do
        let (d, page) ← get_library_category d page_id
        let page_len := page.length
        let v ← current_view d
        let pr := layout_page d page v
        let n_displayed := pr.2
        let newOff := v.offset + max d.geo.n_content n_displayed
        .ok (set_top_offset d (if newOff ≥ page_len then 0 else newOff))
    else
      .ok d
  let pOff := d.playing.offset + d.geo.n_dynamic
  let pOff := if pOff ≥ d.playing.buttons.length then 0 else pOff
  let d := { d with playing := { d.playing with offset := pOff } }
  let (d, es) ← display_top_page d
  .ok (d, es, true)

/-- `btn_reset_offset` (ui.rs): zero both offsets, re-display. -/
def btn_reset_offset (d : Deck) : Except String BtnResult := do
  let _ ← current_view d
  let d := set_top_offset d 0
  let d := { d with playing := { d.playing with offset := 0 } }
  let (d, es) ← display_top_page d
  .ok (d, es, true)

/-- `VolumeControls::set_global_db`: store the level and write a notification
onto both volume buttons.  (Rust formats the f64 level; the exact text is
irrelevant to the modelled properties.) -/
def set_global_db (d : Deck) (db : Int) : Deck :=
  let notif := toString db ++ " dB"
  let d := { d with volume := { d.volume with global_db := db } }
  let d := d.write_data d.volume.global_up (fun data => { data with notification := some notif })
  d.write_data d.volume.global_down (fun data => { data with notification := some notif })

/-- `btn_volume_up` (ui.rs): +3 dB, emit `SetGlobalVolume`. -/
def btn_volume_up (d : Deck) : Except String BtnResult :=
  let db := d.volume.global_db + 3
  let d := set_global_db d db
  .ok (d, [.audio (.setGlobalVolume db)], false)

/-- `btn_volume_down` (ui.rs): -3 dB, emit `SetGlobalVolume`. -/
def btn_volume_down (d : Deck) : Except String BtnResult :=
  let db := d.volume.global_db - 3
  let d := set_global_db d db
  .ok (d, [.audio (.setGlobalVolume db)], false)

/-- `btn_show_volume_control` (ui.rs). -/
def btn_show_volume_control (d : Deck) : Except String BtnResult := do
  let (d, es) ← push_volume_control_page d
  .ok (d, es, true)

/-- `btn_play_stop` (ui.rs): read the track's state; emit `Stop` if it is
advancing, `Play` otherwise. -/
def btn_play_stop (env : TrackEnv) (d : Deck) (path : String) : Except String BtnResult :=
  let state := env.read path
  .ok (d, [.audio (if state.advancing then .stop path else .play path)], false)

/-- `ButtonBehavior::invoke` (btn.rs). -/
def invoke (env : TrackEnv) (bh : ButtonBehavior) (button : ButtonRef) (d : Deck) :
    Except String BtnResult :=
  match bh with
  | .pop => btn_pop d
  | .push id => btn_push d id
  | .goto id => btn_goto d id
  | .playStop =>
    match button.track with
    | some path => btn_play_stop env d path
    | none => .ok (d, [], false)
  | .rotate => btn_rotate d
  | .resetOffset => btn_reset_offset d
  | .volumeUp => btn_volume_up d
  | .volumeDown => btn_volume_down d
  | .showVolumeControl => btn_show_volume_control d

/-- `NoiseDeck::handle_button_tap` (ui.rs): invoke the tap behavior if bound;
unless it reported `skip_refresh`, emit a `Refresh` afterwards. -/
def handle_button_tap (env : TrackEnv) (d : Deck) (button : ButtonRef) :
    Except String (Deck × List EmitCmd) :=
  match button.on_tap with
  | none => .ok (d, [])
  | some on_tap => do
    let (d, es, skip) ← invoke env on_tap button d
    .ok (d, if skip then es else es ++ [.ui .refresh])

/-- `NoiseDeck::handle_button_hold` (ui.rs): invoke the hold behavior if
bound and then always emit a `Refresh` (the `BtnInvokeStatus` is discarded);
with no hold behavior, holding a button of a currently advancing track opens
the volume-control view. -/
def handle_button_hold (env : TrackEnv) (d : Deck) (button : ButtonRef) :
    Except String (Deck × List EmitCmd) :=
  match button.on_hold with
  | some on_hold => do
    let (d, es, _) ← invoke env on_hold button d
    .ok (d, es ++ [.ui .refresh])
  | none =>
    match button.track with
    | some path =>
      if (env.read path).advancing then
        push_volume_control_page d
      else
        .ok (d, [])
    | none => .ok (d, [])

/-- `" m:ss"` remaining-time text of `handle_track_state_changed`.  (Rust
formats fractional seconds from the f64 duration; the modelled clock is in
whole seconds and the exact text is irrelevant to the claims.) -/
def format_remaining (secs : Nat) : String :=
  " " ++ toString (secs / 60) ++ ":" ++ toString (secs % 60)

/-- `NoiseDeck::handle_track_state_changed` (ui.rs): look the track up in the
tracks index — unknown tracks are logged and dropped (`return Ok(())`).  For a
known track, rewrite the button's notification from the track state, update
the playing set, and either re-derive the full grid (membership changed) or
emit a lightweight `Refresh`. -/
def handle_track_state_changed (env : TrackEnv) (d : Deck) (path : String) :
    Except String (Deck × List EmitCmd) :=
  match List.lookup path d.tracks with
  | none => .ok (d, [])
  | some btn => do
    let track_state := env.read path
    let notif :=
      if track_state.advancing then
        match track_state.rem_duration with
        | some remaining => some (format_remaining remaining)
        | none => some "▶️"
      else
        none
    let d := d.write_data btn (fun data => { data with notification := notif })
    let (pv, changed) := update_playing d.playing btn track_state.advancing
    let d := { d with playing := pv }
    if changed then do
      let (d, es) ← display_top_page d
      .ok (d, es)
    else
      .ok (d, [.ui .refresh])

/-!
Concrete instances (the test harness scenario: a start page with one
navigation button and a target page with one sound button, on an original
Stream Deck with a 3×5 key layout). -/

/-- A plain library button with allocation id `i`. -/
def demo_ref (i : Nat) : ButtonRef :=
  { id := i, initData := { label := "Button " ++ toString i } }

/-- The sound button of the harness scenario. -/
def demo_sound_btn : ButtonRef :=
  { id := 3, initData := { label := "Play Sound" }, on_tap := some .playStop,
    track := some "test_sound.mp3" }

/-- Start page: one navigation button. -/
def demo_page1 : Page :=
  { name := "Start", buttons := [{ label := "Go to Target", behavior := .pushPage 2 }] }

/-- Target page: one sound button. -/
def demo_page2 : Page :=
  { name := "Target", buttons := [{ label := "Play Sound", behavior := .playSound "test_sound.mp3" }] }

/-- A freshly constructed controller for the scenario. -/
def demo_deck : Deck :=
  { geo := Geometry.of_key_layout 3 5
    start_page := 1
    pages := [(1, demo_page1), (2, demo_page2)]
    library := []
    tracks := []
    view_stack := [View.new 1]
    playing := {}
    volume := VolumeControls.new
    btn_data := []
    next_id := 3 }

/-- A library cache entry for the target page. -/
def demo_entry : LibraryCategoryState :=
  { id := 2, config := demo_page2, buttons := [demo_sound_btn] }

/-- The controller after the target page was visited and its entry built. -/
def demo_deck_cached : Deck :=
  { demo_deck with
    library := [(2, demo_entry)]
    tracks := [("test_sound.mp3", demo_sound_btn)]
    view_stack := [{ view_type := .libraryPage 2, offset := 0 }, View.new 1] }

/-- Track environment in which the demo sound is advancing. -/
def demo_env_adv : TrackEnv := [("test_sound.mp3", { advancing := true })]

/-- Track environment in which every track is stopped. -/
def demo_env : TrackEnv := []

/-- A deck showing the volume-control view, plus a button with a bound hold
behavior, used to exercise the hold path. -/
def demo_deck_vol : Deck :=
  { demo_deck with view_stack := [View.new_volume_control, View.new 1] }

/-- A button whose hold behavior is `ResetOffset`. -/
def demo_hold_btn : ButtonRef :=
  { id := 9, initData := { label := "Held" }, on_hold := some .resetOffset }

/-- A playing set of two distinct buttons. -/
def demo_playing : PlayingView :=
  { buttons := [demo_ref 3, demo_ref 4], offset := 0 }

/-- The deck of the C7 counterexample: a 2×4 geometry. -/
def demo_c7_deck : Deck := { demo_deck with geo := Geometry.of_key_layout 2 4 }

/-- Six semantic buttons for the C7 counterexample. -/
def demo_c7_sem : List ButtonRef := (List.range 6).map (fun i => demo_ref (i + 3))

/-- A view at offset 0 for the C7 counterexample. -/
def demo_c7_view : View := { view_type := .libraryPage 2, offset := 0 }

/-- Number of dynamic slots of a produced grid that actually hold a button. -/
def dyn_filled_count (g : Geometry) (grid : List (Option ButtonRef)) : Nat :=
  ((grid.drop (g.n_content + 1)).take g.n_dynamic).countP Option.isSome

/-- The deck after pushing the target page on the demo deck. -/
def demo_d1 : Deck :=
  match btn_push demo_deck 2 with
  | .ok r => r.1
  | .error _ => demo_deck

/-- The commands emitted by that push. -/
def demo_es1 : List EmitCmd :=
  match btn_push demo_deck 2 with
  | .ok r => r.2.1
  | .error _ => []

/-- The deck after popping again. -/
def demo_d2 : Deck :=
  match btn_pop demo_d1 with
  | .ok r => r.1
  | .error _ => demo_d1

/-- The commands emitted by that pop. -/
def demo_es2 : List EmitCmd :=
  match btn_pop demo_d1 with
  | .ok r => r.2.1
  | .error _ => []

/-- Every library-cache entry of `d` is still present, unchanged, in `d'`. -/
def library_le (d d' : Deck) : Prop :=
  ∀ q e, List.lookup q d.library = some e → List.lookup q d'.library = some e

/-- One step of the controller event loop: handling one input event or one
audio event (ui.rs `NoiseDeck::run`). -/
inductive ControllerStep : Deck → Deck → Prop where
  | tap (env : TrackEnv) (b : ButtonRef) (d d' : Deck) (es : List EmitCmd)
      (h : handle_button_tap env d b = Except.ok (d', es)) : ControllerStep d d'
  | hold (env : TrackEnv) (b : ButtonRef) (d d' : Deck) (es : List EmitCmd)
      (h : handle_button_hold env d b = Except.ok (d', es)) : ControllerStep d d'
  | track (env : TrackEnv) (path : String) (d d' : Deck) (es : List EmitCmd)
      (h : handle_track_state_changed env d path = Except.ok (d', es)) : ControllerStep d d'

/-- The deck after building the target page's library entry. -/
def demo_dG : Deck :=
  match get_library_category demo_deck 2 with
  | .ok r => r.1
  | .error _ => demo_deck

/-- The buttons of that entry. -/
def demo_bsG : List ButtonRef :=
  match get_library_category demo_deck 2 with
  | .ok r => r.2
  | .error _ => []

/-- The deck after an advancing state-change for the demo sound. -/
def demo_dT : Deck :=
  match handle_track_state_changed demo_env_adv demo_dG "test_sound.mp3" with
  | .ok r => r.1
  | .error _ => demo_dG

/-- The commands emitted by that state-change. -/
def demo_esT : List EmitCmd :=
  match handle_track_state_changed demo_env_adv demo_dG "test_sound.mp3" with
  | .ok r => r.2
  | .error _ => []

/-- The view offset `btn_rotate` computes for a library page: advance by
`max(content_slots, n_displayed of the last layout pass)` and wrap to 0 at or
past the page length. -/
def rotated_offset (d : Deck) (bs : List ButtonRef) (v : View) : Nat :=
  if v.offset + max d.geo.n_content (layout_page d bs v).2 ≥ bs.length then 0
  else v.offset + max d.geo.n_content (layout_page d bs v).2

/-- The playing-set offset `btn_rotate` computes: advance by `dynamic_slots`
and wrap to 0 once it reaches or passes the playing set's length. -/
def rotated_playing_offset (d : Deck) : Nat :=
  if d.playing.offset + d.geo.n_dynamic ≥ d.playing.buttons.length then 0
  else d.playing.offset + d.geo.n_dynamic

/-! Lemmas and claim theorems. -/

/-- The grid produced by `layout_page` always has
`n_content + 1 + n_dynamic + 1` slots. -/
theorem layout_page_length (d : Deck) (sem : List ButtonRef) (v : View) :
    (layout_page d sem v).1.length = d.geo.n_content + 1 + d.geo.n_dynamic + 1 := by
  have hd : (dyn_playing d sem v).length ≤ d.geo.n_dynamic := by
    simp only [dyn_playing, List.length_take]
    omega
  simp only [layout_page, pad_alt_cnt, padTo, List.length_append, List.length_map,
    List.length_take, List.length_replicate, List.length_cons, List.length_nil]
  omega

/-- For a geometry derived from a key layout,
`n_content + 1 + n_dynamic + 1` is exactly the key count. -/
theorem geometry_total (rows cols : Nat) (hr : 1 ≤ rows) (hc : 2 ≤ cols) :
    (Geometry.of_key_layout rows cols).n_content + 1 +
      (Geometry.of_key_layout rows cols).n_dynamic + 1 =
      (Geometry.of_key_layout rows cols).key_count := by
  simp only [Geometry.of_key_layout, Geometry.key_count]
  obtain ⟨r, rfl⟩ : ∃ r, rows = r + 1 := ⟨rows - 1, by omega⟩
  have h1 : (r + 1) * cols = r * cols + cols := by ring
  simp only [Nat.add_sub_cancel, h1]
  generalize r * cols = A
  omega

/-- Claim C1: for every semantic button list, every view offset and every
playing set, both layout functions produce a grid of exactly the device's key
count.  The geometry bounds cover the supported devices (the daemon connects
only to the original Stream Deck, 3 rows × 5 cols); `layout_page` needs only
`rows ≥ 1`, while `layout_volume_control_page` hard-codes two volume rows and
therefore needs `rows ≥ 3`. -/
theorem layout_grid_length (d : Deck) (sem : List ButtonRef) (v : View) (rows cols : Nat)
    (hg : d.geo = Geometry.of_key_layout rows cols) (hr : 3 ≤ rows) (hc : 2 ≤ cols) :
    (layout_page d sem v).1.length = d.geo.key_count ∧
    (layout_volume_control_page d).length = d.geo.key_count := by
  constructor
  · rw [layout_page_length, hg]
    exact geometry_total rows cols (by omega) hc
  · obtain ⟨r, rfl⟩ : ∃ r, rows = r + 3 := ⟨rows - 3, by omega⟩
    have h2 : r + 3 ≥ 2 := by omega
    simp only [layout_volume_control_page, Geometry.key_count, hg, Geometry.of_key_layout,
      h2, if_true, List.length_append, List.length_replicate, List.length_cons,
      List.length_nil, List.length_take, List.length_map]
    have h1 : (r + 3 - 1) * cols = r * cols + 2 * cols := by
      have h : r + 3 - 1 = r + 2 := by omega
      rw [h]
      ring
    have h3 : (r + 3) * cols = r * cols + 3 * cols := by ring
    rw [h1, h3]
    generalize r * cols = A
    omega

/-- Witness for C1 on the 3×5 demo deck. -/
theorem layout_grid_length_witness :
    (layout_page demo_deck_cached [demo_sound_btn]
      { view_type := .libraryPage 2, offset := 0 }).1.length = demo_deck_cached.geo.key_count ∧
    (layout_volume_control_page demo_deck_cached).length = demo_deck_cached.geo.key_count :=
  layout_grid_length demo_deck_cached [demo_sound_btn]
    { view_type := .libraryPage 2, offset := 0 } 3 5 rfl (by decide) (by decide)

/-- Claim C8: `layout_page` is total in both offsets: for every view offset
and every playing-set offset (also at or beyond the respective list length)
the grid has exactly the device's key count, and an out-of-range view offset
degrades to an all-empty content region. -/
theorem layout_page_total (d : Deck) (sem : List ButtonRef) (v : View) (rows cols : Nat)
    (hg : d.geo = Geometry.of_key_layout rows cols) (hr : 1 ≤ rows) (hc : 2 ≤ cols) :
    (layout_page d sem v).1.length = d.geo.key_count ∧
    (sem.length ≤ v.offset →
      (layout_page d sem v).1.take d.geo.n_content =
        List.replicate d.geo.n_content (none : Option ButtonRef)) := by
  constructor
  · rw [layout_page_length, hg]
    exact geometry_total rows cols hr hc
  · intro h
    have hdrop : sem.drop v.offset = [] := List.drop_eq_nil_of_le h
    simp only [layout_page, pad_alt_cnt, hdrop, List.take_nil, List.map_nil,
      List.length_nil, Nat.sub_zero, List.nil_append, List.take_replicate, Nat.min_self,
      List.append_assoc]
    rw [List.take_left' (List.length_replicate _ _)]

/-- Witness for C8: view offset 100 on a one-button page. -/
theorem layout_page_total_witness :
    (layout_page demo_deck_cached [demo_sound_btn]
      { view_type := .libraryPage 2, offset := 100 }).1.length =
      demo_deck_cached.geo.key_count ∧
    (layout_page demo_deck_cached [demo_sound_btn]
      { view_type := .libraryPage 2, offset := 100 }).1.take demo_deck_cached.geo.n_content =
      List.replicate demo_deck_cached.geo.n_content none :=
  ⟨(layout_page_total demo_deck_cached [demo_sound_btn]
      { view_type := .libraryPage 2, offset := 100 } 3 5 rfl (by decide) (by decide)).1,
    (layout_page_total demo_deck_cached [demo_sound_btn]
      { view_type := .libraryPage 2, offset := 100 } 3 5 rfl (by decide) (by decide)).2
      (by decide)⟩

/-- Euclidean form of the ceiling division `⌈n / p⌉ = (n + p - 1) / p`. -/
theorem nat_div_ceil (n p : Nat) (hp : 0 < p) :
    n / p + (if n % p > 0 then 1 else 0) = (n + p - 1) / p := by
  rcases n with _ | m
  · simp [Nat.div_eq_of_lt (show p - 1 < p by omega)]
  · have h1 : m + 1 + p - 1 = m + p := by omega
    rw [h1, Nat.add_div_right _ hp, Nat.succ_div]
    by_cases hd : p ∣ m + 1
    · obtain ⟨k, hk⟩ := hd
      have hm : (m + 1) % p = 0 := by
        rw [hk]
        exact Nat.mul_mod_right p k
      simp [hk ▸ Dvd.intro k rfl, hm]
    · have hm : (m + 1) % p ≠ 0 := fun h => hd (Nat.dvd_of_mod_eq_zero h)
      simp [hd, show (m + 1) % p > 0 from Nat.pos_of_ne_zero hm]

/-- The last slot of a grid ending in the Next button. -/
theorem getLast?_append_singleton (l : List α) (a : α) : (l ++ [a]).getLast? = some a :=
  List.getLast?_concat l

/-- Claim C7 (amended): the total-pages number on the Next slot's label is
`ceil(list length / (content_slots + unused dynamic capacity))`, where the
unused dynamic capacity is `n_dynamic` minus the number of dynamic slots
filled from the Playing Set (slots backfilled with further semantic buttons
count toward the page-size estimate, not as used dynamic capacity). -/
theorem layout_page_next_total (d : Deck) (sem : List ButtonRef) (v : View) (rows cols : Nat)
    (hg : d.geo = Geometry.of_key_layout rows cols) (hr : 2 ≤ rows) (hc : 2 ≤ cols) :
    (layout_page d sem v).1.getLast? =
      some (some (built_button
        (next_label (v.offset / d.geo.n_content + 1)
          ((sem.length +
              (d.geo.n_content + (d.geo.n_dynamic - (dyn_playing d sem v).length)) - 1) /
            (d.geo.n_content + (d.geo.n_dynamic - (dyn_playing d sem v).length)))
          (d.geo.n_content + (d.geo.n_dynamic - (dyn_playing d sem v).length))
          sem.length)
        (some .rotate)
        (some (if v.offset == 0 && d.playing.offset == 0 then ButtonBehavior.rotate
          else ButtonBehavior.resetOffset)))) := by
  have hpos : 0 < d.geo.n_content + (d.geo.n_dynamic - (dyn_playing d sem v).length) := by
    rw [hg]
    simp only [Geometry.of_key_layout]
    have h1 : 1 * 1 ≤ (rows - 1) * cols := Nat.mul_le_mul (by omega) (by omega)
    omega
  simp only [layout_page, pad_alt_cnt]
  rw [getLast?_append_singleton, nat_div_ceil _ _ hpos]

/-- Counterexample for C7 as stated: on a 2×4 geometry with six semantic
buttons and an empty playing set, two dynamic slots are backfilled; the label
shows 1 total page, while ceiling division by
`content_slots + (dynamic_slots - filled dynamic slots)` yields 2. -/
theorem layout_page_next_total_counterexample :
    (layout_page demo_c7_deck demo_c7_sem demo_c7_view).1.getLast? =
      some (some (built_button (next_label 1 1 6 6) (some .rotate) (some .rotate))) ∧
    dyn_filled_count demo_c7_deck.geo (layout_page demo_c7_deck demo_c7_sem demo_c7_view).1 = 2 ∧
    (demo_c7_sem.length + (demo_c7_deck.geo.n_content + (demo_c7_deck.geo.n_dynamic - 2)) - 1) /
      (demo_c7_deck.geo.n_content + (demo_c7_deck.geo.n_dynamic - 2)) = 2 ∧
    next_label 1 1 6 6 ≠ next_label 1 2 6 6 := by
  exact ⟨rfl, rfl, rfl, by decide⟩

/-- Witness for C7 (amended) on the 3×5 demo deck with a single button. -/
theorem layout_page_next_total_witness :
    (layout_page demo_deck_cached [demo_sound_btn]
      { view_type := .libraryPage 2, offset := 0 }).1.getLast? =
      some (some (built_button (next_label 1 1 13 1) (some .rotate) (some .rotate))) :=
  layout_page_next_total demo_deck_cached [demo_sound_btn]
    { view_type := .libraryPage 2, offset := 0 } 3 5 rfl (by decide) (by decide)

/-- Bind on a successful `Except` computation. -/
theorem except_bind_ok (a : α) (f : α → Except ε β) :
    (Except.ok a : Except ε α) >>= f = f a := rfl

/-- Bind on a failed `Except` computation. -/
theorem except_bind_error (e : ε) (f : α → Except ε β) :
    (Except.error e : Except ε α) >>= f = Except.error e := rfl

/-- Injectivity of `Except.ok`. -/
theorem except_ok_inj {a b : α} (h : (Except.ok a : Except ε α) = Except.ok b) : a = b := by
  cases h
  rfl

/-- A successful bound computation factors into a successful first step and a
successful continuation. -/
theorem except_bind_ok_inv {ea : Except ε α} {f : α → Except ε β} {b : β}
    (h : ea >>= f = Except.ok b) : ∃ a, ea = Except.ok a ∧ f a = Except.ok b := by
  cases ea with
  | error e =>
    rw [except_bind_error] at h
    exact Except.noConfusion h
  | ok a => exact ⟨a, rfl, h⟩

/-- `current_view` succeeds exactly on the head of the view stack. -/
theorem current_view_ok {d : Deck} {v : View} (h : current_view d = .ok v) :
    d.view_stack.head? = some v := by
  simp only [current_view] at h
  split at h
  · rename_i v' heq
    cases except_ok_inj h
    exact heq
  · exact Except.noConfusion h

/-- `get_library_category` never touches the navigation, playing, volume or
geometry state. -/
theorem get_library_category_fields {d d' : Deck} {p : Nat} {bs : List ButtonRef}
    (h : get_library_category d p = .ok (d', bs)) :
    d'.geo = d.geo ∧ d'.start_page = d.start_page ∧ d'.pages = d.pages ∧
    d'.view_stack = d.view_stack ∧ d'.playing = d.playing ∧ d'.volume = d.volume := by
  simp only [get_library_category] at h
  split at h
  · cases except_ok_inj h
    exact ⟨rfl, rfl, rfl, rfl, rfl, rfl⟩
  · split at h
    · exact Except.noConfusion h
    · cases except_ok_inj h
      exact ⟨rfl, rfl, rfl, rfl, rfl, rfl⟩

/-- `display_top_page` never changes the view stack (it only fills the
library cache and emits a `Flip`). -/
theorem display_top_page_view_stack {d d' : Deck} {es : List EmitCmd}
    (h : display_top_page d = .ok (d', es)) :
    d'.view_stack = d.view_stack := by
  simp only [display_top_page] at h
  cases hcv : current_view d with
  | error e =>
    rw [hcv, except_bind_error] at h
    exact Except.noConfusion h
  | ok v =>
    rw [hcv, except_bind_ok] at h
    split at h
    · rename_i pid hvt
      cases hg : get_library_category d pid with
      | error e =>
        rw [hg, except_bind_error] at h
        exact Except.noConfusion h
      | ok pr =>
        obtain ⟨da, bs⟩ := pr
        rw [hg, except_bind_ok] at h
        cases hcv2 : current_view da with
        | error e =>
          rw [hcv2, except_bind_error] at h
          exact Except.noConfusion h
        | ok v2 =>
          rw [hcv2, except_bind_ok] at h
          cases except_ok_inj h
          exact (get_library_category_fields hg).2.2.2.1
    · cases except_ok_inj h
      rfl

/-- `btn_push` leaves the new library-page view on top of the old stack. -/
theorem btn_push_view_stack {d d' : Deck} {id : Nat} {es : List EmitCmd} {skip : Bool}
    (h : btn_push d id = .ok (d', es, skip)) :
    d'.view_stack = View.new id :: d.view_stack := by
  simp only [btn_push] at h
  cases hdp : display_top_page { d with view_stack := View.new id :: d.view_stack } with
  | error e =>
    rw [hdp, except_bind_error] at h
    exact Except.noConfusion h
  | ok pr =>
    obtain ⟨da, esa⟩ := pr
    rw [hdp, except_bind_ok] at h
    cases except_ok_inj h
    exact display_top_page_view_stack hdp

/-- `btn_pop` on a stack of depth > 1 pops exactly one frame. -/
theorem btn_pop_view_stack {d d' : Deck} {es : List EmitCmd} {skip : Bool}
    (hlen : 1 < d.view_stack.length)
    (h : btn_pop d = .ok (d', es, skip)) :
    d'.view_stack = d.view_stack.tail := by
  simp only [btn_pop] at h
  rw [if_neg (by omega : ¬ d.view_stack.length ≤ 1)] at h
  cases hdp : display_top_page { d with view_stack := d.view_stack.tail } with
  | error e =>
    rw [hdp, except_bind_error] at h
    exact Except.noConfusion h
  | ok pr =>
    obtain ⟨da, esa⟩ := pr
    rw [hdp, except_bind_ok] at h
    cases except_ok_inj h
    exact display_top_page_view_stack hdp

/-- Claim C3: `Push(A)` followed by `Pop` restores exactly the prior view
stack (in particular the prior top view's page id and offset), and `Pop` on a
stack of depth 1 is a no-op that emits nothing. -/
theorem push_then_pop (d : Deck) (pid : Nat) (hne : d.view_stack ≠ [])
    (d1 : Deck) (es1 : List EmitCmd) (s1 : Bool)
    (hpush : btn_push d pid = .ok (d1, es1, s1))
    (d2 : Deck) (es2 : List EmitCmd) (s2 : Bool)
    (hpop : btn_pop d1 = .ok (d2, es2, s2)) :
    d2.view_stack = d.view_stack ∧
    (∀ d' : Deck, d'.view_stack.length = 1 →
      btn_pop d' = .ok (d', [], false)) := by
  constructor
  · have h1 := btn_push_view_stack hpush
    have hlen : 1 < d1.view_stack.length := by
      rw [h1, List.length_cons]
      have := List.length_pos.mpr hne
      omega
    have h2 := btn_pop_view_stack hlen hpop
    rw [h2, h1]
    rfl
  · intro d' hlen
    simp [btn_pop, hlen]

/-- Witness for C3: pushing the target page on the demo deck and popping
restores the start view stack. -/
theorem push_then_pop_witness :
    demo_deck.view_stack ≠ [] ∧
    btn_push demo_deck 2 = Except.ok (demo_d1, demo_es1, true) ∧
    btn_pop demo_d1 = Except.ok (demo_d2, demo_es2, true) ∧
    demo_d2.view_stack = demo_deck.view_stack := by
  have hpush : btn_push demo_deck 2 = Except.ok (demo_d1, demo_es1, true) := by rfl
  have hpop : btn_pop demo_d1 = Except.ok (demo_d2, demo_es2, true) := by rfl
  exact ⟨by decide, hpush, hpop,
    (push_then_pop demo_deck 2 (by decide) demo_d1 demo_es1 true hpush
      demo_d2 demo_es2 true hpop).1⟩

/-- Removing a button from a duplicate-free playing list by identity shortens
it by exactly one. -/
theorem filter_out_refEq_length (l : List ButtonRef) (b : ButtonRef)
    (hnd : (l.map ButtonRef.id).Nodup)
    (hmem : l.any (fun x => refEq x b) = true) :
    (l.filter (fun x => !(refEq b x))).length + 1 = l.length := by
  induction l with
  | nil => simp at hmem
  | cons a t ih =>
    simp only [List.map_cons, List.nodup_cons] at hnd
    by_cases hab : a.id = b.id
    · have ht : t.filter (fun x => !(refEq b x)) = t := by
        rw [List.filter_eq_self]
        intro x hx
        have hxa : ¬ x.id = a.id := by
          intro h
          exact hnd.1 (h ▸ List.mem_map_of_mem ButtonRef.id hx)
        simp only [refEq, Bool.not_eq_true', beq_eq_false_iff_ne, ne_eq]
        omega
      have ha : (!(refEq b a)) = false := by
        simp only [refEq, Bool.not_eq_false', beq_iff_eq]
        omega
      simp [List.filter_cons, ha, ht]
    · have hmem' : t.any (fun x => refEq x b) = true := by
        rcases List.any_eq_true.mp hmem with ⟨x, hx, hpx⟩
        rcases List.mem_cons.mp hx with rfl | hxt
        · exact absurd (by simpa [refEq] using hpx) hab
        · exact List.any_eq_true.mpr ⟨x, hxt, hpx⟩
      have ha : (!(refEq b a)) = true := by
        simp only [refEq, Bool.not_eq_true', beq_eq_false_iff_ne, ne_eq]
        omega
      have := ih hnd.2 hmem'
      simp only [List.filter_cons, ha, if_true, List.length_cons]
      omega

/-- Claim C4: `update_playing` on a duplicate-free playing set appends an
absent button when it starts playing (reporting a change), removes a present
button when it stops (reporting a change), reports no change otherwise, and
preserves freedom from duplicates — so repeated "advancing" notifications
never duplicate an entry. -/
theorem update_playing_spec (pv : PlayingView) (b : ButtonRef)
    (hnd : (pv.buttons.map ButtonRef.id).Nodup) :
    (pv.buttons.any (fun x => refEq x b) = false →
      update_playing pv b true = ({ pv with buttons := pv.buttons ++ [b] }, true)) ∧
    (pv.buttons.any (fun x => refEq x b) = true →
      update_playing pv b false =
        ({ pv with buttons := pv.buttons.filter (fun x => !(refEq b x)) }, true) ∧
      (pv.buttons.filter (fun x => !(refEq b x))).any (fun x => refEq x b) = false ∧
      (pv.buttons.filter (fun x => !(refEq b x))).length + 1 = pv.buttons.length) ∧
    (pv.buttons.any (fun x => refEq x b) = true → update_playing pv b true = (pv, false)) ∧
    (pv.buttons.any (fun x => refEq x b) = false → update_playing pv b false = (pv, false)) ∧
    (∀ playing, (((update_playing pv b playing).1.buttons.map ButtonRef.id)).Nodup) := by
  refine ⟨?_, ?_, ?_, ?_, ?_⟩
  · intro h
    simp [update_playing, h]
  · intro h
    refine ⟨by simp [update_playing, h], ?_, filter_out_refEq_length _ _ hnd h⟩
    rw [List.any_eq_false]
    intro x hx
    simp only [List.mem_filter, refEq, Bool.not_eq_true', beq_eq_false_iff_ne, ne_eq] at hx
    simp only [refEq, beq_iff_eq]
    omega
  · intro h
    simp [update_playing, h]
  · intro h
    simp [update_playing, h]
  · intro playing
    by_cases hc : pv.buttons.any (fun x => refEq x b) = true
    · cases playing
      · simp only [update_playing, hc]
        simp only [Bool.not_false, Bool.false_and, Bool.true_and, if_false, Bool.not_true,
          if_true, List.map_append]
        refine List.Nodup.sublist ?_ hnd
        exact List.Sublist.map ButtonRef.id (List.filter_sublist _)
      · simp [update_playing, hc, hnd]
    · have hc' : pv.buttons.any (fun x => refEq x b) = false := by
        revert hc
        cases pv.buttons.any (fun x => refEq x b) <;> simp
      cases playing
      · simp [update_playing, hc', hnd]
      · simp only [update_playing, hc']
        simp only [Bool.not_false, Bool.true_and, if_true, List.map_append, List.map_cons,
          List.map_nil]
        rw [List.nodup_append]
        refine ⟨hnd, List.nodup_singleton _, ?_⟩
        intro x hx
        simp only [List.mem_map] at hx
        rcases hx with ⟨y, hy, rfl⟩
        have := List.any_eq_false.mp hc' y hy
        simp only [refEq, beq_iff_eq] at this
        simp [this]

/-- Witness for C4 at a concrete playing set. -/
theorem update_playing_spec_witness :
    ((demo_playing.buttons.map ButtonRef.id).Nodup) ∧
    update_playing demo_playing (demo_ref 5) true =
      ({ demo_playing with buttons := demo_playing.buttons ++ [demo_ref 5] }, true) :=
  ⟨by decide, (update_playing_spec demo_playing (demo_ref 5) (by decide)).1 (by decide)⟩

/-- Counterexample to C5 as stated: tapping the play-sound button of a track
that is already advancing emits a `Stop` command, not a `Play` command. -/
theorem handle_button_tap_play_counterexample :
    handle_button_tap demo_env_adv demo_deck_cached demo_sound_btn =
      Except.ok (demo_deck_cached,
        [EmitCmd.audio (AudioCommand.stop "test_sound.mp3"), EmitCmd.ui UiCommand.refresh]) ∧
    List.countP
      (fun e => match e with | EmitCmd.audio (AudioCommand.play _) => true | _ => false)
      [EmitCmd.audio (AudioCommand.stop "test_sound.mp3"), EmitCmd.ui UiCommand.refresh] = 0 := by
  exact ⟨rfl, rfl⟩

/-- Claim C5 (amended): tapping a button whose tap behavior is `PlayStop`,
bound to a track that is not currently advancing, emits exactly one `Play`
audio command followed by exactly one `Refresh` display command (and changes
no controller state). -/
theorem handle_button_tap_play (env : TrackEnv) (d : Deck) (button : ButtonRef) (path : String)
    (htap : button.on_tap = some .playStop)
    (htrack : button.track = some path)
    (hadv : (env.read path).advancing = false) :
    handle_button_tap env d button =
      Except.ok (d, [EmitCmd.audio (AudioCommand.play path), EmitCmd.ui UiCommand.refresh]) := by
  simp only [handle_button_tap, htap, invoke, htrack, btn_play_stop, hadv]
  rfl

/-- Witness for C5 (amended): the harness scenario with the track stopped. -/
theorem handle_button_tap_play_witness :
    demo_sound_btn.on_tap = some ButtonBehavior.playStop ∧
    demo_sound_btn.track = some "test_sound.mp3" ∧
    (TrackEnv.read demo_env "test_sound.mp3").advancing = false ∧
    handle_button_tap demo_env demo_deck_cached demo_sound_btn =
      Except.ok (demo_deck_cached,
        [EmitCmd.audio (AudioCommand.play "test_sound.mp3"), EmitCmd.ui UiCommand.refresh]) :=
  ⟨rfl, rfl, rfl,
    handle_button_tap_play demo_env demo_deck_cached demo_sound_btn "test_sound.mp3" rfl rfl rfl⟩

/-- Claim C6: a track state-change notification whose path is not in the
tracks index emits no command, changes no controller state, and returns
success. -/
theorem handle_track_state_changed_unknown (env : TrackEnv) (d : Deck) (path : String)
    (h : List.lookup path d.tracks = none) :
    handle_track_state_changed env d path = Except.ok (d, []) := by
  simp [handle_track_state_changed, h]

/-- Witness for C6: an unknown sound path on the fresh demo controller. -/
theorem handle_track_state_changed_unknown_witness :
    List.lookup "unknown_sound.mp3" demo_deck.tracks = none ∧
    handle_track_state_changed demo_env_adv demo_deck "unknown_sound.mp3" =
      Except.ok (demo_deck, []) :=
  ⟨rfl, handle_track_state_changed_unknown demo_env_adv demo_deck "unknown_sound.mp3" rfl⟩

/-- Claim C10: a hold on a button with a bound hold behavior always emits a
`Refresh` after the behavior's own commands — the `skip_refresh` flag is
ignored on the hold path, even when the behavior already emitted a `Flip`. -/
theorem handle_button_hold_refresh (env : TrackEnv) (d : Deck) (button : ButtonRef)
    (bh : ButtonBehavior) (d' : Deck) (es : List EmitCmd) (skip : Bool)
    (hh : button.on_hold = some bh)
    (hinv : invoke env bh button d = Except.ok (d', es, skip)) :
    handle_button_hold env d button = Except.ok (d', es ++ [EmitCmd.ui UiCommand.refresh]) := by
  simp only [handle_button_hold, hh, hinv]
  rfl

/-- Witness for C10: holding a `ResetOffset` button on the volume-control
view; the behavior emits a full `Flip` (and reports `skip_refresh = true`),
yet a `Refresh` is still appended. -/
theorem handle_button_hold_refresh_witness :
    demo_hold_btn.on_hold = some ButtonBehavior.resetOffset ∧
    invoke demo_env ButtonBehavior.resetOffset demo_hold_btn demo_deck_vol =
      Except.ok (demo_deck_vol,
        [EmitCmd.ui (UiCommand.flip (layout_volume_control_page demo_deck_vol))], true) ∧
    handle_button_hold demo_env demo_deck_vol demo_hold_btn =
      Except.ok (demo_deck_vol,
        [EmitCmd.ui (UiCommand.flip (layout_volume_control_page demo_deck_vol)),
          EmitCmd.ui UiCommand.refresh]) :=
  ⟨rfl, by rfl,
    handle_button_hold_refresh demo_env demo_deck_vol demo_hold_btn ButtonBehavior.resetOffset
      demo_deck_vol [EmitCmd.ui (UiCommand.flip (layout_volume_control_page demo_deck_vol))]
      true rfl (by rfl)⟩

/-- Looking up the inserted key after `ainsert` finds the new value. -/
theorem ainsert_lookup_self [BEq κ] [LawfulBEq κ] (l : List (κ × α)) (k : κ) (v : α) :
    List.lookup k (ainsert l k v) = some v := by
  induction l with
  | nil => simp [ainsert, List.lookup]
  | cons kv rest ih =>
    obtain ⟨k', v'⟩ := kv
    simp only [ainsert]
    by_cases hk : (k' == k) = true
    · simp [List.lookup, hk]
    · have hne : k' ≠ k := by simpa using hk
      have h1 : (k == k') = false := beq_eq_false_iff_ne.mpr (Ne.symm hne)
      simp [List.lookup, hk, h1, ih]

/-- Looking up a different key after `ainsert` is unchanged. -/
theorem ainsert_lookup_of_ne [BEq κ] [LawfulBEq κ] (l : List (κ × α)) (k q : κ) (v : α)
    (hne : (q == k) = false) :
    List.lookup q (ainsert l k v) = List.lookup q l := by
  induction l with
  | nil => simp [ainsert, List.lookup, hne]
  | cons kv rest ih =>
    obtain ⟨k', v'⟩ := kv
    simp only [ainsert]
    by_cases hk : (k' == k) = true
    · have hk2 : k' = k := by simpa using hk
      subst hk2
      simp [List.lookup, hne]
    · cases hq : q == k' <;> simp [List.lookup, hk, hq, ih]

/-- `get_library_category` preserves every existing cache entry (on a miss it
only appends an entry for a page id that had none). -/
theorem get_library_category_library_le {d d' : Deck} {p : Nat} {bs : List ButtonRef}
    (h : get_library_category d p = .ok (d', bs)) :
    library_le d d' := by
  simp only [get_library_category] at h
  split at h
  · cases except_ok_inj h
    exact fun q e hq => hq
  · rename_i hnone
    split at h
    · exact Except.noConfusion h
    · cases except_ok_inj h
      intro q e hq
      have hne : (q == p) = false := by
        by_cases hqp : q = p
        · subst hqp
          rw [hq] at hnone
          exact Option.noConfusion hnone
        · exact beq_eq_false_iff_ne.mpr hqp
      rw [ainsert_lookup_of_ne _ _ _ _ hne]
      exact hq

/-- `display_top_page` preserves every library-cache entry. -/
theorem display_top_page_library_le {d d' : Deck} {es : List EmitCmd}
    (h : display_top_page d = .ok (d', es)) :
    library_le d d' := by
  simp only [display_top_page] at h
  cases hcv : current_view d with
  | error e =>
    rw [hcv, except_bind_error] at h
    exact Except.noConfusion h
  | ok v =>
    rw [hcv, except_bind_ok] at h
    split at h
    · rename_i pid hvt
      cases hg : get_library_category d pid with
      | error e =>
        rw [hg, except_bind_error] at h
        exact Except.noConfusion h
      | ok pr =>
        obtain ⟨da, bs⟩ := pr
        rw [hg, except_bind_ok] at h
        cases hcv2 : current_view da with
        | error e =>
          rw [hcv2, except_bind_error] at h
          exact Except.noConfusion h
        | ok v2 =>
          rw [hcv2, except_bind_ok] at h
          cases except_ok_inj h
          exact get_library_category_library_le hg
    · cases except_ok_inj h
      exact fun q e hq => hq

/-- `btn_pop` preserves every library-cache entry. -/
theorem btn_pop_library_le {d d' : Deck} {es : List EmitCmd} {skip : Bool}
    (h : btn_pop d = .ok (d', es, skip)) :
    library_le d d' := by
  simp only [btn_pop] at h
  by_cases hlen : d.view_stack.length ≤ 1
  · rw [if_pos hlen] at h
    cases except_ok_inj h
    exact fun q e hq => hq
  · rw [if_neg hlen] at h
    cases hdp : display_top_page { d with view_stack := d.view_stack.tail } with
    | error e =>
      rw [hdp, except_bind_error] at h
      exact Except.noConfusion h
    | ok pr =>
      obtain ⟨da, esa⟩ := pr
      rw [hdp, except_bind_ok] at h
      cases except_ok_inj h
      exact fun q e hq => display_top_page_library_le hdp q e hq

/-- `btn_push` preserves every library-cache entry. -/
theorem btn_push_library_le {d d' : Deck} {id : Nat} {es : List EmitCmd} {skip : Bool}
    (h : btn_push d id = .ok (d', es, skip)) :
    library_le d d' := by
  simp only [btn_push] at h
  cases hdp : display_top_page { d with view_stack := View.new id :: d.view_stack } with
  | error e =>
    rw [hdp, except_bind_error] at h
    exact Except.noConfusion h
  | ok pr =>
    obtain ⟨da, esa⟩ := pr
    rw [hdp, except_bind_ok] at h
    cases except_ok_inj h
    exact fun q e hq => display_top_page_library_le hdp q e hq

/-- `btn_goto` preserves every library-cache entry. -/
theorem btn_goto_library_le {d d' : Deck} {id : Nat} {es : List EmitCmd} {skip : Bool}
    (h : btn_goto d id = .ok (d', es, skip)) :
    library_le d d' := by
  simp only [btn_goto] at h
  exact fun q e hq => btn_push_library_le h q e hq

/-- `push_volume_control_page` preserves every library-cache entry. -/
theorem push_volume_control_page_library_le {d d' : Deck} {es : List EmitCmd}
    (h : push_volume_control_page d = .ok (d', es)) :
    library_le d d' := by
  simp only [push_volume_control_page] at h
  exact fun q e hq => display_top_page_library_le h q e hq

/-- `btn_rotate` preserves every library-cache entry. -/
theorem btn_rotate_library_le {d d' : Deck} {es : List EmitCmd} {skip : Bool}
    (h : btn_rotate d = .ok (d', es, skip)) :
    library_le d d' := by
  simp only [btn_rotate] at h
  obtain ⟨v, hcv, h⟩ := except_bind_ok_inv h
  by_cases hvc : v.is_volume_control = true
  · simp only [hvc, Bool.not_true, Bool.false_eq_true, if_false, except_bind_ok] at h
    obtain ⟨pr, hdp, h⟩ := except_bind_ok_inv h
    cases except_ok_inj h
    exact fun q e hq => display_top_page_library_le hdp q e hq
  · have hvc' : v.is_volume_control = false := by
      revert hvc
      cases v.is_volume_control <;> simp
    simp only [hvc', Bool.not_false, if_true] at h
    cases hpid : v.page_id with
    | none =>
      rw [hpid, except_bind_error] at h
      exact Except.noConfusion h
    | some pid =>
      rw [hpid] at h
      obtain ⟨pr1, hg, h⟩ := except_bind_ok_inv h
      obtain ⟨v2, hcv2, h⟩ := except_bind_ok_inv h
      simp only [except_bind_ok] at h
      obtain ⟨pr2, hdp, h⟩ := except_bind_ok_inv h
      cases except_ok_inj h
      intro q e hq
      have h1 := get_library_category_library_le hg q e hq
      refine display_top_page_library_le hdp q e ?_
      simp only [set_top_offset]
      split <;> exact h1

/-- `btn_reset_offset` preserves every library-cache entry. -/
theorem btn_reset_offset_library_le {d d' : Deck} {es : List EmitCmd} {skip : Bool}
    (h : btn_reset_offset d = .ok (d', es, skip)) :
    library_le d d' := by
  simp only [btn_reset_offset] at h
  cases hcv : current_view d with
  | error e =>
    rw [hcv, except_bind_error] at h
    exact Except.noConfusion h
  | ok v =>
    rw [hcv, except_bind_ok] at h
    cases hdp : display_top_page
        { set_top_offset d 0 with playing := { (set_top_offset d 0).playing with offset := 0 } } with
    | error e =>
      rw [hdp, except_bind_error] at h
      exact Except.noConfusion h
    | ok pr =>
      obtain ⟨da, esa⟩ := pr
      rw [hdp, except_bind_ok] at h
      cases except_ok_inj h
      intro q e hq
      refine display_top_page_library_le hdp q e ?_
      simp only [set_top_offset]
      split <;> exact hq

/-- `btn_volume_up` preserves every library-cache entry. -/
theorem btn_volume_up_library_le {d d' : Deck} {es : List EmitCmd} {skip : Bool}
    (h : btn_volume_up d = .ok (d', es, skip)) :
    library_le d d' := by
  simp only [btn_volume_up] at h
  cases except_ok_inj h
  exact fun q e hq => hq

/-- `btn_volume_down` preserves every library-cache entry. -/
theorem btn_volume_down_library_le {d d' : Deck} {es : List EmitCmd} {skip : Bool}
    (h : btn_volume_down d = .ok (d', es, skip)) :
    library_le d d' := by
  simp only [btn_volume_down] at h
  cases except_ok_inj h
  exact fun q e hq => hq

/-- `btn_show_volume_control` preserves every library-cache entry. -/
theorem btn_show_volume_control_library_le {d d' : Deck} {es : List EmitCmd} {skip : Bool}
    (h : btn_show_volume_control d = .ok (d', es, skip)) :
    library_le d d' := by
  simp only [btn_show_volume_control] at h
  cases hp : push_volume_control_page d with
  | error e =>
    rw [hp, except_bind_error] at h
    exact Except.noConfusion h
  | ok pr =>
    obtain ⟨da, esa⟩ := pr
    rw [hp, except_bind_ok] at h
    cases except_ok_inj h
    exact push_volume_control_page_library_le hp

/-- `invoke` preserves every library-cache entry, whatever the behavior. -/
theorem invoke_library_le {env : TrackEnv} {bh : ButtonBehavior} {b : ButtonRef}
    {d d' : Deck} {es : List EmitCmd} {skip : Bool}
    (h : invoke env bh b d = .ok (d', es, skip)) :
    library_le d d' := by
  cases bh with
  | pop => exact btn_pop_library_le h
  | push id => exact btn_push_library_le h
  | goto id => exact btn_goto_library_le h
  | playStop =>
    simp only [invoke] at h
    split at h
    · simp only [btn_play_stop] at h
      cases except_ok_inj h
      exact fun q e hq => hq
    · cases except_ok_inj h
      exact fun q e hq => hq
  | rotate => exact btn_rotate_library_le h
  | resetOffset => exact btn_reset_offset_library_le h
  | volumeUp => exact btn_volume_up_library_le h
  | volumeDown => exact btn_volume_down_library_le h
  | showVolumeControl => exact btn_show_volume_control_library_le h

/-- `handle_button_tap` preserves every library-cache entry. -/
theorem handle_button_tap_library_le {env : TrackEnv} {d d' : Deck} {b : ButtonRef}
    {es : List EmitCmd}
    (h : handle_button_tap env d b = .ok (d', es)) :
    library_le d d' := by
  simp only [handle_button_tap] at h
  split at h
  · cases except_ok_inj h
    exact fun q e hq => hq
  · rename_i bh htap
    cases hi : invoke env bh b d with
    | error e =>
      rw [hi, except_bind_error] at h
      exact Except.noConfusion h
    | ok pr =>
      obtain ⟨da, esa, skipa⟩ := pr
      rw [hi, except_bind_ok] at h
      cases except_ok_inj h
      exact invoke_library_le hi

/-- `handle_button_hold` preserves every library-cache entry. -/
theorem handle_button_hold_library_le {env : TrackEnv} {d d' : Deck} {b : ButtonRef}
    {es : List EmitCmd}
    (h : handle_button_hold env d b = .ok (d', es)) :
    library_le d d' := by
  simp only [handle_button_hold] at h
  split at h
  · rename_i bh hhold
    cases hi : invoke env bh b d with
    | error e =>
      rw [hi, except_bind_error] at h
      exact Except.noConfusion h
    | ok pr =>
      obtain ⟨da, esa, skipa⟩ := pr
      rw [hi, except_bind_ok] at h
      cases except_ok_inj h
      exact invoke_library_le hi
  · split at h
    · split at h
      · exact push_volume_control_page_library_le h
      · cases except_ok_inj h
        exact fun q e hq => hq
    · cases except_ok_inj h
      exact fun q e hq => hq

/-- `handle_track_state_changed` preserves every library-cache entry. -/
theorem handle_track_state_changed_library_le {env : TrackEnv} {d d' : Deck} {path : String}
    {es : List EmitCmd}
    (h : handle_track_state_changed env d path = .ok (d', es)) :
    library_le d d' := by
  simp only [handle_track_state_changed] at h
  split at h
  · cases except_ok_inj h
    exact fun q e hq => hq
  · split at h
    all_goals try split at h
    all_goals try split at h
    all_goals first
      | (cases except_ok_inj h
         exact fun q e hq => hq)
      | (obtain ⟨pr, hdp, h⟩ := except_bind_ok_inv h
         cases except_ok_inj h
         exact fun q e hq => display_top_page_library_le hdp q e hq)

/-- Claim C9: once `get_library_category` has built the entry for a page id,
every later lookup — after any sequence of controller steps — returns the
same deck unchanged and the same ordered `ButtonRef` list (the same
allocation identities): the entry is never rebuilt or invalidated. -/
theorem get_library_category_memo (d : Deck) (pid : Nat) (d1 : Deck) (bs : List ButtonRef)
    (h : get_library_category d pid = .ok (d1, bs))
    (d' : Deck) (hsteps : Relation.ReflTransGen ControllerStep d1 d') :
    get_library_category d' pid = .ok (d', bs) := by
  have hentry : ∃ e, List.lookup pid d1.library = some e ∧ e.buttons = bs := by
    simp only [get_library_category] at h
    split at h
    · rename_i st heq
      cases except_ok_inj h
      exact ⟨st, heq, rfl⟩
    · rename_i heq
      split at h
      · exact Except.noConfusion h
      · rename_i page hpage
        cases except_ok_inj h
        exact ⟨_, ainsert_lookup_self _ _ _, rfl⟩
  obtain ⟨e, he, hbs⟩ := hentry
  have hinv : List.lookup pid d'.library = some e := by
    induction hsteps with
    | refl => exact he
    | tail hab hstep ih =>
      cases hstep with
      | tap env b da db es2 hh => exact handle_button_tap_library_le hh pid e ih
      | hold env b da db es2 hh => exact handle_button_hold_library_le hh pid e ih
      | track env p da db es2 hh => exact handle_track_state_changed_library_le hh pid e ih
  simp [get_library_category, hinv, hbs]

/-- Witness for C9: build the target page's entry, run one controller step
(an advancing track notification, which re-derives the grid), and look the
entry up again. -/
theorem get_library_category_memo_witness :
    get_library_category demo_deck 2 = Except.ok (demo_dG, demo_bsG) ∧
    handle_track_state_changed demo_env_adv demo_dG "test_sound.mp3" =
      Except.ok (demo_dT, demo_esT) ∧
    get_library_category demo_dT 2 = Except.ok (demo_dT, demo_bsG) := by
  have h1 : get_library_category demo_deck 2 = Except.ok (demo_dG, demo_bsG) := by rfl
  have h2 : handle_track_state_changed demo_env_adv demo_dG "test_sound.mp3" =
      Except.ok (demo_dT, demo_esT) := by rfl
  exact ⟨h1, h2,
    get_library_category_memo demo_deck 2 demo_dG demo_bsG h1 demo_dT
      (Relation.ReflTransGen.single
        (ControllerStep.track demo_env_adv "test_sound.mp3" demo_dG demo_dT demo_esT h2))⟩

/-- Claim C2: on a library page (with its cache entry built), `Rotate`
succeeds, emits via `display_top_page` (`skip_refresh = true`), advances the
view offset by `max(content_slots, n_displayed)` — `n_displayed` being the
count reported by the last layout pass — wrapping to 0 at or past the page
length, and independently advances the playing-set offset by `dynamic_slots`,
wrapping to 0 once it reaches or passes the playing set's length.  In
particular, with at most `content_slots` buttons and offset 0, one rotation
returns the view offset to 0. -/
theorem btn_rotate_spec (d : Deck) (pid off : Nat) (rest : List View)
    (e : LibraryCategoryState)
    (hstack : d.view_stack = View.mk (ViewType.libraryPage pid) off :: rest)
    (hlib : List.lookup pid d.library = some e) :
    Except.map (fun r => (r.1.view_stack, r.1.playing.offset, r.2.2)) (btn_rotate d) =
      Except.ok (View.mk (ViewType.libraryPage pid)
          (rotated_offset d e.buttons (View.mk (ViewType.libraryPage pid) off)) :: rest,
        rotated_playing_offset d, true) ∧
    (off = 0 → e.buttons.length ≤ d.geo.n_content →
      rotated_offset d e.buttons (View.mk (ViewType.libraryPage pid) off) = 0) := by
  have hget : get_library_category d pid = Except.ok (d, e.buttons) := by
    simp only [get_library_category, hlib]
  have hdisp : ∀ (g : Geometry) (sp : Nat) (pg : List (Nat × Page))
      (lib : List (Nat × LibraryCategoryState)) (tr : List (String × ButtonRef))
      (voff : Nat) (vr : List View) (pl : PlayingView) (vol : VolumeControls)
      (bd : List (Nat × BtnData)) (ni : Nat),
      List.lookup pid lib = some e →
      display_top_page
          (Deck.mk g sp pg lib tr (View.mk (ViewType.libraryPage pid) voff :: vr) pl vol bd ni) =
        Except.ok
          (Deck.mk g sp pg lib tr (View.mk (ViewType.libraryPage pid) voff :: vr) pl vol bd ni,
            [EmitCmd.ui (UiCommand.flip (layout_page
              (Deck.mk g sp pg lib tr (View.mk (ViewType.libraryPage pid) voff :: vr) pl vol bd ni)
              e.buttons (View.mk (ViewType.libraryPage pid) voff)).1)]) := by
    intro g sp pg lib tr voff vr pl vol bd ni hl
    simp only [display_top_page, current_view, List.head?_cons, except_bind_ok,
      get_library_category, hl]
  constructor
  · simp only [btn_rotate, current_view, hstack, List.head?_cons, except_bind_ok,
      View.is_volume_control, View.page_id, Bool.not_false, eq_self_iff_true, if_true,
      hget, set_top_offset, hdisp, hlib, Except.map, rotated_offset,
      rotated_playing_offset]
  · intro h0 hlen
    subst h0
    simp only [rotated_offset]
    rw [if_pos]
    have := Nat.le_max_left d.geo.n_content
      (layout_page d e.buttons (View.mk (ViewType.libraryPage pid) 0)).2
    omega

/-- Witness for C2: rotating the cached one-button target page at offset 0
wraps the view offset back to 0 (and the empty playing set's offset to 0). -/
theorem btn_rotate_spec_witness :
    Except.map (fun r => (r.1.view_stack, r.1.playing.offset, r.2.2))
        (btn_rotate demo_deck_cached) =
      Except.ok ([View.mk (ViewType.libraryPage 2) 0, View.new 1], 0, true) ∧
    rotated_offset demo_deck_cached demo_entry.buttons (View.mk (ViewType.libraryPage 2) 0) = 0 := by
  have h := btn_rotate_spec demo_deck_cached 2 0 [View.new 1] demo_entry rfl rfl
  refine ⟨?_, h.2 rfl (by decide)⟩
  rw [h.1]
  rfl

end Noisedeck
